import Mathlib

/-!
Verification of the paper-search pipeline of this repository
(`src/paper_search.py`, `agent_executor.py`) against its specification.

The Python code is shallowly embedded: each relevant Python function is
translated into an executable Lean definition.  Network interaction with a
provider is modelled by a function from the requested batch limit to the
provider's answer (`Except` models a raised-and-caught exception), and the
instrumented outputs additionally record which batch limits were requested
and how many raw items each loop examined, mirroring the call sites and the
loop iterations of the source one for one.  Python `float` arithmetic on
`score` is modelled as exact rational arithmetic; Python strings are Lean
strings; a Python dict of external identifiers is an association list.
-/

set_option maxRecDepth 10000

namespace PaperSearch

/-- Python's substring test `needle in hay` on strings. -/
def strContains (hay needle : String) : Bool :=
  (List.range (hay.data.length + 1)).any fun i => needle.data.isPrefixOf (hay.data.drop i)

/-- Python truthiness of an optional string (`None` and `""` are falsy). -/
def pyTruthy : Option String → Bool
  | none => false
  | some s => !(s == "")

/-- Lookup in a Python dict modelled as an association list (`d[key]` / `d.get(key)`). -/
def dictGet : List (String × String) → String → Option String
  | [], _ => none
  | (k, v) :: rest, key => if k == key then some v else dictGet rest key

/-- Python's `key in d` membership test on a dict. -/
def dictHas (d : List (String × String)) (key : String) : Bool :=
  (dictGet d key).isSome

/-- Modelled from the spec: the configuration switches read by `paper_search.py`.
`REQUIRE_PDF_DOWNLOAD`, `ENABLE_PDF_URL_ENHANCEMENT` and `TRUSTED_PDF_SOURCES` are
imported by `src/paper_search.py` from `config`, but `config.py` under `src/` does
not define them; spec section 6 lists them as environment-driven configuration
(trust-filter enable flag, trusted-domain allow-list), so they are modelled here as
explicit configuration fields, together with the switches `config.py` does define
(`ENABLE_SEMANTIC_SCHOLAR`, `SEARCH_SOURCE`). -/
structure Config where
  require_pdf_download : Bool
  enable_pdf_url_enhancement : Bool
  trusted_pdf_sources : List String
  enable_semantic_scholar : Bool
  search_source : String
deriving DecidableEq

/-- `PaperSearch._is_trusted_pdf_url` (paper_search.py lines 111-134). -/
def is_trusted_pdf_url (trusted_sources : List String) (url : String) : Bool :=
  if url == "" then false
  else if trusted_sources.any (fun trusted_source => strContains url trusted_source) then true
  else if strContains url "arxiv.org/pdf" then true
  else false

/-- Raw Semantic Scholar paper object: the attributes read by
`_process_semantic_scholar_paper` and `_extract_enhanced_pdf_urls`, with the
defaults the `getattr` calls supply for absent attributes.  `openAccessPdf`
is the `.url` attribute of the open-access object (`none` when the object or
its url is absent); `externalIds` is the external-identifier dict; author
objects are represented by their extracted names. -/
structure SSPaper where
  title : String
  authors : List String
  year : Option Int
  citationCount : Nat
  abstract : String
  url : String
  paperId : Option String
  openAccessPdf : Option String
  externalIds : List (String × String)
deriving DecidableEq

/-- The f-string `https://arxiv.org/pdf/{arxiv_id}.pdf` (lines 160 and 225). -/
def arxivPdfUrl (arxiv_id : String) : String :=
  "https://arxiv.org/pdf/" ++ arxiv_id ++ ".pdf"

/-- The f-string for PubMed Central article PDFs (line 173). -/
def pmcPdfUrl (pmc_id : String) : String :=
  "https://www.ncbi.nlm.nih.gov/pmc/articles/PMC" ++ pmc_id ++ "/pdf/"

/-- The f-string for PubMed landing pages (line 179). -/
def pubmedUrl (pmid : String) : String :=
  "https://pubmed.ncbi.nlm.nih.gov/" ++ pmid ++ "/"

/-- The f-string for bioRxiv/medRxiv PDFs (line 190). -/
def biorxivPdfUrl (doi : String) : String :=
  "https://www.biorxiv.org/content/" ++ doi ++ "v1.full.pdf"

/-- The f-string for Nature PDFs (line 197): the DOI with every occurrence of
the Nature prefix removed, as `str.replace` does. -/
def naturePdfUrl (doi : String) : String :=
  "https://www.nature.com/articles/" ++ (doi.replace "10.1038/" "") ++ ".pdf"

/-- Python `doi.split("/")[-1]`. -/
def lastSegment (s : String) : String :=
  (s.splitOn "/").getLastD ""

/-- The f-string for Science PDFs (line 203). -/
def sciencePdfUrl (doi : String) : String :=
  "https://science.sciencemag.org/content/" ++ lastSegment doi ++ ".full.pdf"

/-- The f-string for IEEE Xplore stamps (line 209). -/
def ieeePdfUrl (doi : String) : String :=
  "https://ieeexplore.ieee.org/stamp/stamp.jsp?arnumber=" ++ lastSegment doi

/-- The f-string for ACM DL PDFs (line 215). -/
def acmPdfUrl (doi : String) : String :=
  "https://dl.acm.org/doi/pdf/" ++ doi

/-- The arXiv id reconstructed from an arXiv DOI alias (lines 221-224): the
last DOI segment, with a leading token of six characters removed when the
segment starts with that token. -/
def arxivIdFromDoi (doi : String) : String :=
  let raw := lastSegment doi
  if String.isPrefixOf "arXiv." raw then raw.drop 6 else raw

/-- The f-string `https://doi.org/{doi}` (line 231). -/
def genericDoiUrl (doi : String) : String :=
  "https://doi.org/" ++ doi

/-- Candidate-building part of `PaperSearch._extract_enhanced_pdf_urls`
(paper_search.py lines 146-233): the `pdf_urls` list as accumulated by the
sequence of conditional `append` statements, in source order. -/
def extract_pdf_url_candidates (paper : SSPaper) : List String :=
  let pdf_urls : List String :=
    match paper.openAccessPdf with
    | some u => if u ≠ "" then [u] else []
    | none => []
  if paper.externalIds.isEmpty then pdf_urls
  else
    let ids := paper.externalIds
    let pdf_urls :=
      match dictGet ids "ArXiv" with
      | some arxiv_id => pdf_urls ++ [arxivPdfUrl arxiv_id]
      | none => pdf_urls
    let pdf_urls :=
      if dictHas ids "PubMed" || dictHas ids "PMID" || dictHas ids "PMC" then
        let pmc_id := (dictGet ids "PMC").getD ""
        let pmid := (dictGet ids "PMID").getD ""
        if pmc_id ≠ "" then pdf_urls ++ [pmcPdfUrl pmc_id]
        else if pmid ≠ "" then pdf_urls ++ [pubmedUrl pmid]
        else pdf_urls
      else pdf_urls
    match dictGet ids "DOI" with
    | none => pdf_urls
    | some doi =>
      let pdf_urls := if strContains doi "10.1101" then pdf_urls ++ [biorxivPdfUrl doi] else pdf_urls
      let pdf_urls := if strContains doi "10.1038" then pdf_urls ++ [naturePdfUrl doi] else pdf_urls
      let pdf_urls := if strContains doi "10.1126" then pdf_urls ++ [sciencePdfUrl doi] else pdf_urls
      let pdf_urls := if strContains doi "10.1109" then pdf_urls ++ [ieeePdfUrl doi] else pdf_urls
      let pdf_urls := if strContains doi "10.1145" then pdf_urls ++ [acmPdfUrl doi] else pdf_urls
      let pdf_urls := if strContains doi "10.48550" then pdf_urls ++ [arxivPdfUrl (arxivIdFromDoi doi)] else pdf_urls
      if pdf_urls.isEmpty then pdf_urls ++ [genericDoiUrl doi] else pdf_urls

/-- Trust-filtering and selection part of `PaperSearch._extract_enhanced_pdf_urls`
(paper_search.py lines 235-249): keep the trusted candidates and return the
first one, or `none`. -/
def extract_enhanced_pdf_urls (trusted_sources : List String) (paper : SSPaper) : Option String :=
  let pdf_urls := extract_pdf_url_candidates paper
  let trusted_pdf_urls := pdf_urls.filter fun u => is_trusted_pdf_url trusted_sources u
  trusted_pdf_urls.head?

/-- Normalized paper record, `PaperSearchResult` (paper_search.py lines 32-69).
The Python float `score` is modelled as an exact rational. -/
structure PaperSearchResult where
  title : String
  authors : List String
  abstract : String
  url : String
  pdf_url : Option String
  year : Option Int
  source : String
  paper_id : Option String
  score : ℚ
deriving DecidableEq

/-- The PDF URL resolved by `_process_semantic_scholar_paper` (lines 279-287):
the enhanced extraction when `ENABLE_PDF_URL_ENHANCEMENT` is on, else the raw
`openAccessPdf` url. -/
def resolved_pdf_url (cfg : Config) (paper : SSPaper) : Option String :=
  if cfg.enable_pdf_url_enhancement then
    extract_enhanced_pdf_urls cfg.trusted_pdf_sources paper
  else
    paper.openAccessPdf

/-- The score computed by `_process_semantic_scholar_paper` (lines 295-302):
base 1.0 plus a citation bonus of `min(citation_count / 10000, 0.2)` when the
citation count is nonzero. -/
def semantic_scholar_score (citation_count : Nat) : ℚ :=
  if citation_count ≠ 0 then 1 + min ((citation_count : ℚ) / 10000) (1 / 5) else 1

/-- The `PaperSearchResult` built by `_process_semantic_scholar_paper`
(lines 304-315). -/
def mk_semantic_scholar_record (cfg : Config) (paper : SSPaper) : PaperSearchResult :=
  ⟨paper.title, paper.authors, paper.abstract, paper.url, resolved_pdf_url cfg paper,
    paper.year, "semantic_scholar", paper.paperId, semantic_scholar_score paper.citationCount⟩

/-- `PaperSearch._process_semantic_scholar_paper` (paper_search.py lines 251-318):
drop the paper when `REQUIRE_PDF_DOWNLOAD` is on and its resolved PDF URL is
falsy or untrusted, else produce the normalized record. -/
def process_semantic_scholar_paper (cfg : Config) (paper : SSPaper) : Option PaperSearchResult :=
  if cfg.require_pdf_download &&
      (!pyTruthy (resolved_pdf_url cfg paper) ||
        !is_trusted_pdf_url cfg.trusted_pdf_sources ((resolved_pdf_url cfg paper).getD "")) then
    none
  else
    some (mk_semantic_scholar_record cfg paper)

/-- The constant `MAX_TOTAL_PAPERS_TO_PROCESS` (paper_search.py line 26). -/
def MAX_TOTAL_PAPERS_TO_PROCESS : Nat := 200

/-- First-pass loop of `search_semantic_scholar` (paper_search.py lines 561-573):
process papers in provider order, stopping once `max_results` records are
collected.  The second component counts how many raw items were examined,
i.e. passed to `_process_semantic_scholar_paper`. -/
def firstPassLoop (cfg : Config) (max_results : Nat) :
    List SSPaper → List PaperSearchResult → Nat → List PaperSearchResult × Nat
  | [], acc, n => (acc, n)
  | paper :: rest, acc, n =>
    if acc.length ≥ max_results then (acc, n)
    else
      match process_semantic_scholar_paper cfg paper with
      | some r => firstPassLoop cfg max_results rest (acc ++ [r]) (n + 1)
      | none => firstPassLoop cfg max_results rest acc (n + 1)

/-- Backfill loop of `_fetch_additional_papers` (paper_search.py lines 359-376):
stop when `papers_needed` additional records are collected (checked at the top
of each iteration) or after `MAX_TOTAL_PAPERS_TO_PROCESS` items have been
processed (checked at the bottom).  The second component is the
`papers_processed` counter. -/
def backfillLoop (cfg : Config) (papers_needed : Nat) :
    List SSPaper → List PaperSearchResult → Nat → List PaperSearchResult × Nat
  | [], acc, processed => (acc, processed)
  | paper :: rest, acc, processed =>
    if acc.length ≥ papers_needed then (acc, processed)
    else
      let processed2 := processed + 1
      let acc2 :=
        match process_semantic_scholar_paper cfg paper with
        | some r => acc ++ [r]
        | none => acc
      if processed2 ≥ MAX_TOTAL_PAPERS_TO_PROCESS then (acc2, processed2)
      else backfillLoop cfg papers_needed rest acc2 processed2

/-- `PaperSearch._fetch_additional_papers` (paper_search.py lines 320-388):
re-scan `processed_papers[max_results:]` for up to
`max_results - current_count` further trusted records.  The second component
is the number of raw items the backfill loop examined. -/
def fetch_additional_papers (cfg : Config) (max_results current_count : Nat)
    (processed_papers : List SSPaper) : List PaperSearchResult × Nat :=
  let papers_needed := max_results - current_count
  let remaining_papers :=
    if processed_papers.length > max_results then processed_papers.drop max_results else []
  if remaining_papers.isEmpty then ([], 0)
  else backfillLoop cfg papers_needed remaining_papers [] 0

/-- Instrumented outcome of `search_semantic_scholar`: the returned records,
the number of raw items examined by the first pass and by the backfill loop,
and the batch limits of the network requests issued to the provider. -/
structure S2SearchOutput where
  results : List PaperSearchResult
  examinedFirst : Nat
  examinedBackfill : Nat
  requestedLimits : List Nat
deriving DecidableEq

/-- `PaperSearch.search_semantic_scholar` (paper_search.py lines 509-605).
The network client is modelled by `client : Option (Nat → Except String (List SSPaper))`:
`none` is an uninitialized `s2_client`; applying the function is the single
`search_paper` request with the given `limit`, whose `Except.error` outcome is
the exception caught by the surrounding `try` (returning `[]`). -/
def search_semantic_scholar (cfg : Config)
    (client : Option (Nat → Except String (List SSPaper))) (max_results : Nat) :
    S2SearchOutput :=
  match client with
  | none => ⟨[], 0, 0, []⟩
  | some fetch =>
    let initial_limit := if cfg.require_pdf_download then max_results * 10 else max_results
    match fetch initial_limit with
    | Except.error _ => ⟨[], 0, 0, [initial_limit]⟩
    | Except.ok all_papers =>
      if all_papers.isEmpty then ⟨[], 0, 0, [initial_limit]⟩
      else
        let fp := firstPassLoop cfg max_results all_papers [] 0
        let paper_results := fp.1
        let filtered_count := paper_results.length
        if cfg.require_pdf_download ∧ filtered_count < max_results ∧
            all_papers.length > filtered_count then
          let add := fetch_additional_papers cfg max_results filtered_count all_papers
          ⟨paper_results ++ add.1, fp.2, add.2, [initial_limit]⟩
        else
          ⟨paper_results, fp.2, 0, [initial_limit]⟩

/-- Raw arXiv result object: the attributes read by `search_arxiv`.
`publishedYear` models `result.published.year` (`none` when `published` is
absent); author objects are represented by their names. -/
structure ArxivItem where
  title : String
  authors : List String
  summary : String
  entry_id : String
  pdf_url : Option String
  publishedYear : Option Int
  short_id : String
deriving DecidableEq

/-- The `PaperSearchResult` built for one arXiv item (paper_search.py
lines 474-485), with base score exactly 1.0. -/
def mk_arxiv_record (item : ArxivItem) : PaperSearchResult :=
  ⟨item.title, item.authors, item.summary, item.entry_id, item.pdf_url,
    item.publishedYear, "arxiv", some item.short_id, 1⟩

/-- Result loop of `search_arxiv` (paper_search.py lines 470-502): keep every
item when `REQUIRE_PDF_DOWNLOAD` is off, else only items whose `pdf_url` is
truthy and trusted. -/
def arxivLoop (cfg : Config) : List ArxivItem → List PaperSearchResult → List PaperSearchResult
  | [], acc => acc
  | item :: rest, acc =>
    let paper_result := mk_arxiv_record item
    if cfg.require_pdf_download then
      if pyTruthy item.pdf_url &&
          is_trusted_pdf_url cfg.trusted_pdf_sources (item.pdf_url.getD "") then
        arxivLoop cfg rest (acc ++ [paper_result])
      else arxivLoop cfg rest acc
    else arxivLoop cfg rest (acc ++ [paper_result])

/-- Instrumented outcome of `search_arxiv`: the outcome of iterating the arXiv
client (`Except.error` when the client raises, propagated to the caller since
`search_arxiv` has no handler of its own), and the `max_results` limits of the
search requests issued. -/
structure ArxivSearchOutput where
  result : Except String (List PaperSearchResult)
  requestedLimits : List Nat

/-- `PaperSearch.search_arxiv` (paper_search.py lines 434-507).  The arXiv
client is modelled by `fetch : Nat → Except String (List ArxivItem)`: applying
it is the single `arxiv.Search` request with the given `max_results`; the
category-filter composition only alters the query string, over which the
abstract `fetch` already closes. -/
def search_arxiv (cfg : Config) (fetch : Nat → Except String (List ArxivItem))
    (max_results : Nat) : ArxivSearchOutput :=
  match fetch max_results with
  | Except.error e => ⟨Except.error e, [max_results]⟩
  | Except.ok items => ⟨Except.ok (arxivLoop cfg items []), [max_results]⟩

/-- Instrumented outcome of `search_papers`: the returned records and the batch
limits of all network requests issued during the call. -/
structure SearchPapersOutput where
  results : List PaperSearchResult
  requestedLimits : List Nat
deriving DecidableEq

/-- `PaperSearch.search_papers` (paper_search.py lines 390-432): dispatch on the
effective source; exceptions from an adapter call are caught and leave the
result list empty; an unknown or disabled source yields the empty list. -/
def search_papers (cfg : Config) (s2client : Option (Nat → Except String (List SSPaper)))
    (arxivFetch : Nat → Except String (List ArxivItem)) (sourceParam : Option String)
    (max_results : Nat) : SearchPapersOutput :=
  let source := sourceParam.getD cfg.search_source
  if source == "arxiv" then
    let out := search_arxiv cfg arxivFetch max_results
    match out.result with
    | Except.ok rs => ⟨rs, out.requestedLimits⟩
    | Except.error _ => ⟨[], out.requestedLimits⟩
  else if source == "semantic_scholar" && cfg.enable_semantic_scholar then
    let out := search_semantic_scholar cfg s2client max_results
    ⟨out.results, out.requestedLimits⟩
  else
    ⟨[], []⟩

/-- The clarification message of `handle_search` (agent_executor.py line 87). -/
def unclearQueryMessage : String :=
  "Your query seems unclear or incomplete. Please provide more specific details about the academic papers you\x27re looking for."

/-- The no-results message of `handle_search` (agent_executor.py line 108). -/
def noPapersMessage : String :=
  "No papers found matching your query. Please try a different search term."

/-- Instrumented outcome of `handle_search`: the response text and the
`(query, max_results)` argument pairs of each `search_papers` invocation, in
order. -/
structure HandleSearchOutput where
  response : String
  searchCalls : List (String × Nat)
deriving DecidableEq

/-- `PaperSearchAgent.handle_search` (agent_executor.py lines 80-117).  The
external query analyzer is modelled by its result triple
`(is_valid, search_query, keywords)`; the search pipeline by
`searchFn : String → Nat → List PaperSearchResult`
(`PaperSearchAgent.search_papers`, whose declared default `max_results` is 5);
the output formatter by `formatFn`.  `max_search_results` models
`self.max_search_results`.  The first search uses the comma-joined keyword
string; when it is empty and the analyzed `search_query` differs from the
original `query`, a second search runs with the original query and the default
`max_results = 5`. -/
def handle_search (max_search_results : Nat) (is_valid : Bool) (search_query : String)
    (keywords : List String) (searchFn : String → Nat → List PaperSearchResult)
    (formatFn : List PaperSearchResult → String) (query : String) : HandleSearchOutput :=
  if !is_valid then ⟨unclearQueryMessage, []⟩
  else
    let keywords_string := String.intercalate ", " keywords
    let search_results := searchFn keywords_string max_search_results
    if search_results.isEmpty then
      if search_query ≠ query then
        let search_results2 := searchFn query 5
        if search_results2.isEmpty then
          ⟨noPapersMessage, [(keywords_string, max_search_results), (query, 5)]⟩
        else
          ⟨formatFn search_results2, [(keywords_string, max_search_results), (query, 5)]⟩
      else
        ⟨noPapersMessage, [(keywords_string, max_search_results)]⟩
    else
      ⟨formatFn search_results, [(keywords_string, max_search_results)]⟩

/-- Candidate list as claim C2 describes it: one independent candidate block
per strategy family, concatenated in the claimed fixed order (open-access
field, arXiv-identifier reconstruction, PMC/PubMed construction, DOI-prefix
table rules), with the generic DOI fallback appended if and only if a DOI is
present and the list of candidates from the earlier strategies is empty. -/
def claimedCandidates (paper : SSPaper) : List String :=
  let ids := paper.externalIds
  let openAccessCand : List String :=
    match paper.openAccessPdf with
    | some u => if u ≠ "" then [u] else []
    | none => []
  let arxivCand : List String :=
    match dictGet ids "ArXiv" with
    | some arxiv_id => [arxivPdfUrl arxiv_id]
    | none => []
  let pubmedCand : List String :=
    if dictHas ids "PubMed" || dictHas ids "PMID" || dictHas ids "PMC" then
      let pmc_id := (dictGet ids "PMC").getD ""
      let pmid := (dictGet ids "PMID").getD ""
      if pmc_id ≠ "" then [pmcPdfUrl pmc_id]
      else if pmid ≠ "" then [pubmedUrl pmid]
      else []
    else []
  let doiCand : List String :=
    match dictGet ids "DOI" with
    | some doi =>
      (if strContains doi "10.1101" then [biorxivPdfUrl doi] else []) ++
      (if strContains doi "10.1038" then [naturePdfUrl doi] else []) ++
      (if strContains doi "10.1126" then [sciencePdfUrl doi] else []) ++
      (if strContains doi "10.1109" then [ieeePdfUrl doi] else []) ++
      (if strContains doi "10.1145" then [acmPdfUrl doi] else []) ++
      (if strContains doi "10.48550" then [arxivPdfUrl (arxivIdFromDoi doi)] else [])
    | none => []
  let earlier := openAccessCand ++ arxivCand ++ pubmedCand ++ doiCand
  earlier ++
    (if (dictGet ids "DOI").isSome ∧ earlier = [] then
      [genericDoiUrl ((dictGet ids "DOI").getD "")]
    else [])

/-- A configuration with trust-filtering and PDF-URL enhancement enabled, an
empty allow-list (the hard-coded arXiv rule still applies) and the default
source. -/
def cfgRequire : Config := ⟨true, true, [], true, "semantic_scholar"⟩

/-- A configuration with trust-filtering disabled. -/
def cfgNoRequire : Config := ⟨false, true, [], true, "semantic_scholar"⟩

/-- A raw paper with every optional attribute absent: no PDF URL is derivable
for it. -/
def samplePaperEmpty : SSPaper := ⟨"", [], none, 0, "", "", none, none, []⟩

/-- A raw paper whose open-access field is an arXiv PDF link, hence trusted
under the hard-coded rule. -/
def samplePaperTrusted : SSPaper :=
  ⟨"Sample", [], none, 0, "", "", some "dup", some "https://arxiv.org/pdf/2301.00001v1.pdf", []⟩

/-- A raw paper with 10000 citations and a trusted open-access link. -/
def samplePaperCited : SSPaper :=
  ⟨"Cited", [], none, 10000, "", "", some "cited", some "https://arxiv.org/pdf/2.pdf", []⟩

/-- A raw paper with no citations. -/
def samplePaperUncited : SSPaper :=
  ⟨"Uncited", [], none, 0, "", "", some "uncited", some "https://arxiv.org/pdf/3.pdf", []⟩

/-! ## General lemmas -/

/-- Appending inside both branches of an `if` factors out. -/
theorem ite_append (c : Prop) [Decidable c] (xs ys : List String) :
    (if c then xs ++ ys else xs) = xs ++ (if c then ys else []) := by
  split <;> simp

/-- The conditional generic-fallback append of `_extract_enhanced_pdf_urls`
(line 230) in factored form. -/
theorem isEmpty_append_ite (l : List String) (g : String) :
    (if l.isEmpty then l ++ [g] else l) = l ++ (if l = [] then [g] else []) := by
  cases l <;> simp

/-! ## Lemmas about `_process_semantic_scholar_paper` -/

/-- Whenever `_process_semantic_scholar_paper` returns a record, it is the
normalized record of the input paper. -/
theorem process_eq_mk_of_some (cfg : Config) (paper : SSPaper) (r : PaperSearchResult)
    (h : process_semantic_scholar_paper cfg paper = some r) :
    r = mk_semantic_scholar_record cfg paper := by
  unfold process_semantic_scholar_paper at h
  split at h
  · exact Option.noConfusion h
  · exact (Option.some_inj.mp h).symm

/-- With trust-filtering off, `_process_semantic_scholar_paper` never drops a
paper. -/
theorem process_of_require_off (cfg : Config) (paper : SSPaper)
    (hreq : cfg.require_pdf_download = false) :
    process_semantic_scholar_paper cfg paper = some (mk_semantic_scholar_record cfg paper) := by
  unfold process_semantic_scholar_paper
  simp [hreq]

/-- With trust-filtering on, every record `_process_semantic_scholar_paper`
returns carries a non-empty trusted PDF URL. -/
theorem process_pdf_trusted (cfg : Config) (paper : SSPaper) (r : PaperSearchResult)
    (hreq : cfg.require_pdf_download = true)
    (h : process_semantic_scholar_paper cfg paper = some r) :
    ∃ u, r.pdf_url = some u ∧ u ≠ "" ∧
      is_trusted_pdf_url cfg.trusted_pdf_sources u = true := by
  have hr := process_eq_mk_of_some cfg paper r h
  unfold process_semantic_scholar_paper at h
  split at h
  · exact Option.noConfusion h
  · next hcond =>
    rw [hreq] at hcond
    simp only [Bool.true_and, Bool.or_eq_true, Bool.not_eq_true', Bool.not_eq_false] at hcond
    push_neg at hcond
    obtain ⟨h1, h2⟩ := hcond
    rcases hu : resolved_pdf_url cfg paper with _ | u
    · rw [hu] at h1
      simp [pyTruthy] at h1
    · refine ⟨u, ?_, ?_, ?_⟩
      · rw [hr]
        simp [mk_semantic_scholar_record, hu]
      · rw [hu] at h1
        simpa [pyTruthy] using h1
      · rw [hu] at h2
        simpa using h2

/-! ## Membership lemmas for the processing loops -/

/-- Every record collected by the first-pass loop comes from the initial
accumulator or from `_process_semantic_scholar_paper`. -/
theorem firstPassLoop_mem (cfg : Config) (max_results : Nat) :
    ∀ (l : List SSPaper) (acc : List PaperSearchResult) (n : Nat) (r : PaperSearchResult),
      r ∈ (firstPassLoop cfg max_results l acc n).1 →
      r ∈ acc ∨ ∃ p, process_semantic_scholar_paper cfg p = some r := by
  intro l
  induction l with
  | nil =>
    intro acc n r h
    exact Or.inl h
  | cons p rest ih =>
    intro acc n r h
    simp only [firstPassLoop] at h
    split at h
    · exact Or.inl h
    · rcases hp : process_semantic_scholar_paper cfg p with _ | r0 <;> rw [hp] at h
      · exact ih acc (n + 1) r h
      · rcases ih (acc ++ [r0]) (n + 1) r h with hacc | hex
        · rcases List.mem_append.mp hacc with h1 | h2
          · exact Or.inl h1
          · have : r = r0 := List.mem_singleton.mp h2
            subst this
            exact Or.inr ⟨p, hp⟩
        · exact Or.inr hex

/-- Every record collected by the backfill loop comes from the initial
accumulator or from `_process_semantic_scholar_paper`. -/
theorem backfillLoop_mem (cfg : Config) (papers_needed : Nat) :
    ∀ (l : List SSPaper) (acc : List PaperSearchResult) (processed : Nat)
      (r : PaperSearchResult),
      r ∈ (backfillLoop cfg papers_needed l acc processed).1 →
      r ∈ acc ∨ ∃ p, process_semantic_scholar_paper cfg p = some r := by
  intro l
  induction l with
  | nil =>
    intro acc processed r h
    exact Or.inl h
  | cons p rest ih =>
    intro acc processed r h
    simp only [backfillLoop] at h
    split at h
    · exact Or.inl h
    · rcases hp : process_semantic_scholar_paper cfg p with _ | r0 <;> rw [hp] at h
      · split at h
        · exact Or.inl h
        · exact ih acc (processed + 1) r h
      · have hstep : r ∈ acc ++ [r0] → r ∈ acc ∨ ∃ p, process_semantic_scholar_paper cfg p = some r := by
          intro hacc
          rcases List.mem_append.mp hacc with h1 | h2
          · exact Or.inl h1
          · have : r = r0 := List.mem_singleton.mp h2
            subst this
            exact Or.inr ⟨p, hp⟩
        split at h
        · exact hstep h
        · rcases ih (acc ++ [r0]) (processed + 1) r h with hacc | hex
          · exact hstep hacc
          · exact Or.inr hex

/-- Every record returned by `_fetch_additional_papers` comes from
`_process_semantic_scholar_paper`. -/
theorem fetch_additional_papers_mem (cfg : Config) (max_results current_count : Nat)
    (processed_papers : List SSPaper) (r : PaperSearchResult)
    (h : r ∈ (fetch_additional_papers cfg max_results current_count processed_papers).1) :
    ∃ p, process_semantic_scholar_paper cfg p = some r := by
  simp only [fetch_additional_papers] at h
  split at h
  · split at h
    · simp at h
    · rcases backfillLoop_mem cfg _ _ _ _ r h with h1 | hex
      · simp at h1
      · exact hex
  · simp at h

/-- Every record returned by `search_semantic_scholar` comes from
`_process_semantic_scholar_paper`. -/
theorem search_semantic_scholar_mem (cfg : Config)
    (client : Option (Nat → Except String (List SSPaper))) (max_results : Nat)
    (r : PaperSearchResult)
    (h : r ∈ (search_semantic_scholar cfg client max_results).results) :
    ∃ p, process_semantic_scholar_paper cfg p = some r := by
  simp only [search_semantic_scholar] at h
  split at h
  · simp at h
  · split at h
    · simp at h
    · split at h
      · simp at h
      · split at h
        · rcases List.mem_append.mp h with h1 | h2
          · rcases firstPassLoop_mem cfg max_results _ [] 0 r h1 with h1' | hex
            · simp at h1'
            · exact hex
          · exact fetch_additional_papers_mem cfg _ _ _ r h2
        · rcases firstPassLoop_mem cfg max_results _ [] 0 r h with h1' | hex
          · simp at h1'
          · exact hex

/-- Every record collected by the arXiv result loop comes from the initial
accumulator or is the normalized record of some item; with trust-filtering on,
the item's PDF URL was truthy and trusted. -/
theorem arxivLoop_mem (cfg : Config) :
    ∀ (items : List ArxivItem) (acc : List PaperSearchResult) (r : PaperSearchResult),
      r ∈ arxivLoop cfg items acc →
      r ∈ acc ∨ ∃ item, r = mk_arxiv_record item ∧
        (cfg.require_pdf_download = true →
          pyTruthy item.pdf_url = true ∧
          is_trusted_pdf_url cfg.trusted_pdf_sources (item.pdf_url.getD "") = true) := by
  intro items
  induction items with
  | nil =>
    intro acc r h
    exact Or.inl h
  | cons item rest ih =>
    intro acc r h
    simp only [arxivLoop] at h
    have hstep : ∀ hcheck : cfg.require_pdf_download = true →
        pyTruthy item.pdf_url = true ∧
          is_trusted_pdf_url cfg.trusted_pdf_sources (item.pdf_url.getD "") = true,
        r ∈ acc ++ [mk_arxiv_record item] →
        r ∈ acc ∨ ∃ i, r = mk_arxiv_record i ∧
          (cfg.require_pdf_download = true →
            pyTruthy i.pdf_url = true ∧
            is_trusted_pdf_url cfg.trusted_pdf_sources (i.pdf_url.getD "") = true) := by
      intro hcheck hacc
      rcases List.mem_append.mp hacc with h1 | h2
      · exact Or.inl h1
      · exact Or.inr ⟨item, List.mem_singleton.mp h2, hcheck⟩
    split at h
    · next hreq =>
      split at h
      · next hc =>
        rcases ih (acc ++ [mk_arxiv_record item]) r h with hacc | hex
        · exact hstep (fun _ => Bool.and_eq_true _ _ ▸ hc) hacc
        · exact Or.inr hex
      · rcases ih acc r h with hacc | hex
        · exact Or.inl hacc
        · exact Or.inr hex
    · next hreq =>
      rcases ih (acc ++ [mk_arxiv_record item]) r h with hacc | hex
      · refine hstep (fun hr => absurd hr hreq) hacc
      · exact Or.inr hex

/-! ## Bound lemmas for the backfill loop -/

/-- The backfill loop's `papers_processed` counter never exceeds the
processing ceiling, provided it enters below the ceiling. -/
theorem backfillLoop_processed_le (cfg : Config) (papers_needed : Nat) :
    ∀ (l : List SSPaper) (acc : List PaperSearchResult) (processed : Nat),
      processed ≤ MAX_TOTAL_PAPERS_TO_PROCESS - 1 →
      (backfillLoop cfg papers_needed l acc processed).2 ≤ MAX_TOTAL_PAPERS_TO_PROCESS := by
  intro l
  induction l with
  | nil =>
    intro acc processed hp
    simp only [backfillLoop]
    omega
  | cons p rest ih =>
    intro acc processed hp
    simp only [backfillLoop]
    split
    · omega
    · split
      · simp only [MAX_TOTAL_PAPERS_TO_PROCESS] at hp ⊢
        omega
      · next hlt =>
        exact ih _ (processed + 1)
          (by simp only [MAX_TOTAL_PAPERS_TO_PROCESS] at hp hlt ⊢; omega)

/-- The backfill loop collects at most `papers_needed` records, provided it
enters with no more than that. -/
theorem backfillLoop_length_le (cfg : Config) (papers_needed : Nat) :
    ∀ (l : List SSPaper) (acc : List PaperSearchResult) (processed : Nat),
      acc.length ≤ papers_needed →
      (backfillLoop cfg papers_needed l acc processed).1.length ≤ papers_needed := by
  intro l
  induction l with
  | nil =>
    intro acc processed hlen
    exact hlen
  | cons p rest ih =>
    intro acc processed hlen
    simp only [backfillLoop]
    split
    · exact hlen
    · next hlt =>
      have hlt2 : acc.length < papers_needed := Nat.lt_of_not_ge hlt
      rcases hp : process_semantic_scholar_paper cfg p with _ | r0
      · split
        · exact hlen
        · exact ih acc (processed + 1) hlen
      · have hlen2 : (acc ++ [r0]).length ≤ papers_needed := by
          simp only [List.length_append, List.length_singleton]
          omega
        split
        · exact hlen2
        · exact ih (acc ++ [r0]) (processed + 1) hlen2

/-! ## Order and size lemmas for the first pass -/

/-- With trust-filtering off, the first-pass loop keeps raw items verbatim in
provider order, taking exactly enough to reach `max_results`. -/
theorem firstPassLoop_no_filter (cfg : Config) (max_results : Nat)
    (hreq : cfg.require_pdf_download = false) :
    ∀ (l : List SSPaper) (acc : List PaperSearchResult) (n : Nat),
      (firstPassLoop cfg max_results l acc n).1
        = acc ++ (l.take (max_results - acc.length)).map (mk_semantic_scholar_record cfg) := by
  intro l
  induction l with
  | nil =>
    intro acc n
    simp [firstPassLoop]
  | cons p rest ih =>
    intro acc n
    simp only [firstPassLoop]
    split
    · next hge =>
      have : max_results - acc.length = 0 := Nat.sub_eq_zero_of_le hge
      simp [this]
    · next hlt =>
      have hlt2 : acc.length < max_results := Nat.lt_of_not_ge hlt
      rw [process_of_require_off cfg p hreq]
      rw [ih (acc ++ [mk_semantic_scholar_record cfg p]) (n + 1)]
      have hk : max_results - acc.length = (max_results - (acc.length + 1)) + 1 := by omega
      rw [hk]
      simp [List.take_succ_cons]

/-! ## Requested-limit lemmas -/

/-- `search_semantic_scholar` issues exactly one batch request when the client
is initialized, with limit `max_results * 10` under trust-filtering and
`max_results` otherwise. -/
theorem search_semantic_scholar_requestedLimits (cfg : Config)
    (fetch : Nat → Except String (List SSPaper)) (max_results : Nat) :
    (search_semantic_scholar cfg (some fetch) max_results).requestedLimits
      = [if cfg.require_pdf_download then max_results * 10 else max_results] := by
  simp only [search_semantic_scholar]
  split
  · rfl
  · split
    · rfl
    · split
      · rfl
      · rfl

/-- `search_semantic_scholar` issues no request when the client is
uninitialized. -/
theorem search_semantic_scholar_requestedLimits_none (cfg : Config) (max_results : Nat) :
    (search_semantic_scholar cfg none max_results).requestedLimits = [] := rfl

/-- `search_arxiv` issues exactly one search request, with limit exactly
`max_results`. -/
theorem search_arxiv_requestedLimits (cfg : Config)
    (fetch : Nat → Except String (List ArxivItem)) (max_results : Nat) :
    (search_arxiv cfg fetch max_results).requestedLimits = [max_results] := by
  simp only [search_arxiv]
  split <;> rfl

/-! ## The candidate list in claim order -/

/-- Emptiness of a list as an equation. -/
theorem isEmpty_eq_nil (l : List String) : (l.isEmpty = true) = (l = []) := by
  cases l <;> simp

/-- The PubMed-family block of `_extract_enhanced_pdf_urls` (lines 165-181) in
factored form. -/
theorem pm_block_append (xs : List String) (c1 : Prop) [Decidable c1] (c2 : Prop) [Decidable c2]
    (c3 : Prop) [Decidable c3] (u1 u2 : String) :
    (if c1 then (if c2 then xs ++ [u1] else if c3 then xs ++ [u2] else xs) else xs)
      = xs ++ (if c1 then (if c2 then [u1] else if c3 then [u2] else []) else []) := by
  split_ifs <;> simp

/-- The sequentially accumulated candidate list of the source equals the
per-strategy concatenation in the claimed fixed order. -/
theorem extract_candidates_eq_claimed (paper : SSPaper) :
    extract_pdf_url_candidates paper = claimedCandidates paper := by
  rcases hids : paper.externalIds with _ | ⟨kv, rest⟩
  · simp [extract_pdf_url_candidates, claimedCandidates, hids, dictGet, dictHas]
  · simp only [extract_pdf_url_candidates, claimedCandidates, hids, List.isEmpty_cons,
      Bool.false_eq_true, if_false]
    rcases hA : dictGet (kv :: rest) "ArXiv" with _ | aId <;>
      rcases hD : dictGet (kv :: rest) "DOI" with _ | doi <;>
      (simp only [pm_block_append]
       try simp only [ite_append]
       simp [isEmpty_eq_nil, List.append_assoc])

/-! ## Score lemmas -/

/-- The branching score computation agrees with the closed citation-bonus
formula (the zero-citation branch coincides with the formula at 0). -/
theorem semantic_scholar_score_eq (c : Nat) :
    semantic_scholar_score c = 1 + min ((c : ℚ) / 10000) (1 / 5) := by
  unfold semantic_scholar_score
  rcases eq_or_ne c 0 with h0 | hne
  · subst h0
    rw [if_neg (by norm_num), Nat.cast_zero, zero_div, min_eq_left (by norm_num)]
    norm_num
  · rw [if_pos hne]

/-- The Semantic Scholar score always lies in the interval [1, 6/5]. -/
theorem semantic_scholar_score_bounds (c : Nat) :
    1 ≤ semantic_scholar_score c ∧ semantic_scholar_score c ≤ 6 / 5 := by
  rw [semantic_scholar_score_eq]
  constructor
  · have h : (0:ℚ) ≤ min ((c : ℚ) / 10000) (1 / 5) := le_min (by positivity) (by norm_num)
    linarith
  · have h : min ((c : ℚ) / 10000) (1 / 5) ≤ 1 / 5 := min_le_right _ _
    linarith

/-! ## Claim theorems -/

/-- Claim C1: with trust-filtering (`REQUIRE_PDF_DOWNLOAD`) enabled, every
record returned by a search — on the Semantic Scholar path and on the arXiv
path alike — has a present, non-empty `pdf_url` accepted by
`_is_trusted_pdf_url`; candidates without such a URL are dropped before they
can occupy a result slot. -/
theorem trusted_filter_sound (cfg : Config)
    (client : Option (Nat → Except String (List SSPaper)))
    (arxivFetch : Nat → Except String (List ArxivItem)) (max_results : Nat)
    (hreq : cfg.require_pdf_download = true) :
    (∀ r ∈ (search_semantic_scholar cfg client max_results).results,
      ∃ u, r.pdf_url = some u ∧ u ≠ "" ∧
        is_trusted_pdf_url cfg.trusted_pdf_sources u = true) ∧
    (∀ rs, (search_arxiv cfg arxivFetch max_results).result = Except.ok rs →
      ∀ r ∈ rs, ∃ u, r.pdf_url = some u ∧ u ≠ "" ∧
        is_trusted_pdf_url cfg.trusted_pdf_sources u = true) := by
  constructor
  · intro r hr
    obtain ⟨p, hp⟩ := search_semantic_scholar_mem cfg client max_results r hr
    exact process_pdf_trusted cfg p r hreq hp
  · intro rs hok r hr
    simp only [search_arxiv] at hok
    split at hok
    · simp at hok
    · next items heq =>
      simp only [Except.ok.injEq] at hok
      rw [← hok] at hr
      rcases arxivLoop_mem cfg items [] r hr with h0 | ⟨item, hrit, hcheck⟩
      · simp at h0
      · obtain ⟨h1, h2⟩ := hcheck hreq
        rcases hu : item.pdf_url with _ | u
        · rw [hu] at h1
          simp [pyTruthy] at h1
        · refine ⟨u, ?_, ?_, ?_⟩
          · rw [hrit]
            simp [mk_arxiv_record, hu]
          · rw [hu] at h1
            simpa [pyTruthy] using h1
          · rw [hu] at h2
            simpa using h2

/-- Witness for the theorem of claim C1, at a trust-filtering configuration
and a single raw paper whose open-access link is an arXiv PDF. -/
theorem trusted_filter_sound_witness :
    ∃ u, (mk_semantic_scholar_record cfgRequire samplePaperTrusted).pdf_url = some u ∧
      u ≠ "" ∧ is_trusted_pdf_url cfgRequire.trusted_pdf_sources u = true :=
  (trusted_filter_sound cfgRequire (some fun _ => Except.ok [samplePaperTrusted])
      (fun _ => Except.ok []) 5 (by decide)).1
    (mk_semantic_scholar_record cfgRequire samplePaperTrusted) (by decide)

/-- Claim C2: the PDF-URL resolver produces candidates in the fixed order
open-access field, arXiv-identifier reconstruction, PMC/PubMed construction,
then the DOI-prefix table rules (bioRxiv/medRxiv, Nature, Science, IEEE, ACM,
arXiv-DOI alias with the leading token stripped); the generic
`https://doi.org/<doi>` candidate appears iff a DOI is present and the earlier
strategies produced nothing; and the resolver returns the first candidate in
production order that the trust policy accepts, or none. -/
theorem pdf_candidate_resolution_spec (trusted_sources : List String) (paper : SSPaper) :
    extract_pdf_url_candidates paper = claimedCandidates paper ∧
    extract_enhanced_pdf_urls trusted_sources paper
      = ((claimedCandidates paper).filter fun u => is_trusted_pdf_url trusted_sources u).head? := by
  refine ⟨extract_candidates_eq_claimed paper, ?_⟩
  simp only [extract_enhanced_pdf_urls, extract_candidates_eq_claimed paper]

/-- Counterexample to claim C3 as stated: with trust-filtering on,
`max_results = 21` and a fetched batch of 210 untrusted raw items (exactly the
requested `21 * 10`), the first pass examines all 210 items and the backfill
loop re-examines 189 more, so 399 raw items are examined across the one
`search()` call — far beyond 200. -/
theorem processing_ceiling_counterexample :
    (search_semantic_scholar cfgRequire
        (some fun _ => Except.ok (List.replicate 210 samplePaperEmpty)) 21).examinedFirst +
      (search_semantic_scholar cfgRequire
        (some fun _ => Except.ok (List.replicate 210 samplePaperEmpty)) 21).examinedBackfill = 399 ∧
    ¬ ((search_semantic_scholar cfgRequire
        (some fun _ => Except.ok (List.replicate 210 samplePaperEmpty)) 21).examinedFirst +
      (search_semantic_scholar cfgRequire
        (some fun _ => Except.ok (List.replicate 210 samplePaperEmpty)) 21).examinedBackfill ≤ 200) := by
  decide

/-- Amended claim C3: the 200-item ceiling bounds the backfill phase only —
the backfill loop examines at most `MAX_TOTAL_PAPERS_TO_PROCESS = 200` raw
items and stops as soon as the shortfall is filled (it never collects more
than `max_results - current_count` additional records) or the ceiling is
reached; the first pass is not counted against this ceiling. -/
theorem backfill_ceiling_bounds (cfg : Config) (max_results current_count : Nat)
    (processed_papers : List SSPaper) :
    (fetch_additional_papers cfg max_results current_count processed_papers).1.length
        ≤ max_results - current_count ∧
    (fetch_additional_papers cfg max_results current_count processed_papers).2
        ≤ MAX_TOTAL_PAPERS_TO_PROCESS := by
  constructor
  · simp only [fetch_additional_papers]
    split
    · split
      · simp
      · exact backfillLoop_length_le cfg _ _ [] 0 (by simp)
    · split
      · simp
      · exact backfillLoop_length_le cfg _ _ [] 0 (by simp)
  · simp only [fetch_additional_papers]
    split
    · split
      · simp
      · exact backfillLoop_processed_le cfg _ _ [] 0 (by simp)
    · split
      · simp
      · exact backfillLoop_processed_le cfg _ _ [] 0 (by simp)

/-- Claim C4 (a code bug): at a concrete failing input — trust-filtering on,
`max_results = 2`, a batch of three raw items of which only the third resolves
a trusted PDF — the first pass examines all three items and collects one
record, then the backfill re-processes `papers[2:]`, an item the first pass
already examined, and the same paper (id `dup`) is returned twice. -/
theorem backfill_duplicate_at_failing_input :
    (search_semantic_scholar cfgRequire
        (some fun _ => Except.ok [samplePaperEmpty, samplePaperEmpty, samplePaperTrusted]) 2).results.map
        (fun r => r.paper_id) = [some "dup", some "dup"] ∧
    ¬ ((search_semantic_scholar cfgRequire
        (some fun _ => Except.ok [samplePaperEmpty, samplePaperEmpty, samplePaperTrusted]) 2).results.map
        (fun r => r.paper_id)).Nodup ∧
    (search_semantic_scholar cfgRequire
        (some fun _ => Except.ok [samplePaperEmpty, samplePaperEmpty, samplePaperTrusted]) 2).examinedFirst = 3 := by
  refine ⟨by decide, by decide, by decide⟩

/-- Counterexample to claim C5 as stated: with trust-filtering enabled, a
`search_papers` call on the arXiv provider requests an initial batch of
exactly `max_results = 5` items, not `max_results * 10 = 50`. -/
theorem arxiv_initial_batch_counterexample :
    (search_papers cfgRequire none (fun _ => Except.ok []) (some "arxiv") 5).requestedLimits = [5] ∧
    (search_papers cfgRequire none (fun _ => Except.ok []) (some "arxiv") 5).requestedLimits ≠ [50] := by
  decide

/-- Amended claim C5: on the Semantic Scholar path the provider is asked for
one initial batch of `max_results * 10` items when trust-filtering is enabled
and `max_results` otherwise; the arXiv provider is always asked for exactly
`max_results`, regardless of trust-filtering. -/
theorem initial_batch_sizes (cfg : Config) (s2fetch : Nat → Except String (List SSPaper))
    (arxivFetch : Nat → Except String (List ArxivItem)) (max_results : Nat) :
    (search_semantic_scholar cfg (some s2fetch) max_results).requestedLimits
        = [if cfg.require_pdf_download then max_results * 10 else max_results] ∧
    (search_arxiv cfg arxivFetch max_results).requestedLimits = [max_results] :=
  ⟨search_semantic_scholar_requestedLimits cfg s2fetch max_results,
    search_arxiv_requestedLimits cfg arxivFetch max_results⟩

/-- Claim C6: a single `search_papers` invocation issues at most one network
batch request to the provider, however much backfill activity occurs — the
backfill phase never fetches (the embedded `_fetch_additional_papers` has no
access to the client at all, it only re-scans the already-fetched list). -/
theorem single_network_fetch (cfg : Config)
    (s2client : Option (Nat → Except String (List SSPaper)))
    (arxivFetch : Nat → Except String (List ArxivItem)) (sourceParam : Option String)
    (max_results : Nat) :
    (search_papers cfg s2client arxivFetch sourceParam max_results).requestedLimits.length ≤ 1 := by
  simp only [search_papers]
  split
  · split <;> simp [search_arxiv_requestedLimits]
  · split
    · rcases s2client with _ | fetch
      · simp [search_semantic_scholar_requestedLimits_none]
      · simp [search_semantic_scholar_requestedLimits]
    · simp

/-- With trust-filtering off, `search_semantic_scholar` returns exactly the
first `max_results` fetched raw items, normalized, in provider order. -/
theorem search_semantic_scholar_no_filter (cfg : Config)
    (hreq : cfg.require_pdf_download = false) (papers : List SSPaper) (max_results : Nat) :
    (search_semantic_scholar cfg (some fun _ => Except.ok papers) max_results).results
      = (papers.take max_results).map (mk_semantic_scholar_record cfg) := by
  simp only [search_semantic_scholar]
  split
  · next hemp =>
    have hnil : papers = [] := by simpa [isEmpty_eq_nil] using hemp
    subst hnil
    simp
  · split
    · next hcond =>
      rw [hreq] at hcond
      simp at hcond
    · have h := firstPassLoop_no_filter cfg max_results hreq papers [] 0
      simpa using h

/-- The score at zero citations. -/
theorem semantic_scholar_score_zero : semantic_scholar_score 0 = 1 := by
  simp [semantic_scholar_score]

/-- The score at 10000 citations: the bonus caps at 1/5. -/
theorem semantic_scholar_score_ten_thousand : semantic_scholar_score 10000 = 6 / 5 := by
  rw [semantic_scholar_score_eq]
  rw [show ((10000 : Nat) : ℚ) / 10000 = 1 by norm_num]
  rw [min_eq_right (by norm_num)]
  norm_num

/-- Counterexample to claim C7 as stated: two raw papers arrive in fetch order
with 0 citations then 10000 citations; the returned score sequence is
`[1, 6/5]`, which is not sorted by descending score — no local re-ranking
takes place. -/
theorem ranking_not_sorted_counterexample :
    ((search_semantic_scholar cfgNoRequire
        (some fun _ => Except.ok [samplePaperUncited, samplePaperCited]) 5).results.map
        (fun r => r.score)) = [1, 6 / 5] ∧
    ¬ List.Sorted (fun a b : ℚ => b ≤ a)
        ((search_semantic_scholar cfgNoRequire
          (some fun _ => Except.ok [samplePaperUncited, samplePaperCited]) 5).results.map
          (fun r => r.score)) := by
  have h12 : ((search_semantic_scholar cfgNoRequire
      (some fun _ => Except.ok [samplePaperUncited, samplePaperCited]) 5).results.map
      (fun r => r.score)) = [1, 6 / 5] := by
    rw [search_semantic_scholar_no_filter cfgNoRequire rfl]
    simp [mk_semantic_scholar_record, samplePaperUncited, samplePaperCited,
      semantic_scholar_score_zero, semantic_scholar_score_ten_thousand]
  refine ⟨h12, ?_⟩
  intro hs
  rw [h12] at hs
  have h61 : (6 / 5 : ℚ) ≤ 1 := (List.sorted_cons.mp hs).1 (6 / 5) (by simp)
  norm_num at h61

/-- Amended claim C7: the record sequence is returned in provider fetch order
and no local sort by score is performed — with trust-filtering disabled the
result is exactly the first `max_results` raw items, normalized, in fetch
order; descending-score order holds only insofar as the provider already
returns items sorted that way. -/
theorem results_preserve_fetch_order (enh es : Bool) (trusted : List String) (src : String)
    (papers : List SSPaper) (max_results : Nat) :
    (search_semantic_scholar ⟨false, enh, trusted, es, src⟩
        (some fun _ => Except.ok papers) max_results).results
      = (papers.take max_results).map
          (mk_semantic_scholar_record ⟨false, enh, trusted, es, src⟩) :=
  search_semantic_scholar_no_filter ⟨false, enh, trusted, es, src⟩ rfl papers max_results

/-- Claim C8: every record produced from the arXiv provider has score exactly
1.0, and every record produced from the Semantic Scholar provider with
citation count C has score exactly `1.0 + min(C / 10000, 0.2)`, which always
lies in the interval [1, 6/5]. -/
theorem score_formula_bounds :
    (∀ (cfg : Config) (paper : SSPaper) (r : PaperSearchResult),
      process_semantic_scholar_paper cfg paper = some r →
      r.score = 1 + min ((paper.citationCount : ℚ) / 10000) (1 / 5) ∧
        1 ≤ r.score ∧ r.score ≤ 6 / 5) ∧
    (∀ (cfg : Config) (fetch : Nat → Except String (List ArxivItem)) (max_results : Nat)
      (rs : List PaperSearchResult) (r : PaperSearchResult),
      (search_arxiv cfg fetch max_results).result = Except.ok rs → r ∈ rs → r.score = 1) := by
  constructor
  · intro cfg paper r h
    have hr := process_eq_mk_of_some cfg paper r h
    subst hr
    have hsc : (mk_semantic_scholar_record cfg paper).score
        = semantic_scholar_score paper.citationCount := rfl
    rw [hsc, semantic_scholar_score_eq]
    refine ⟨rfl, ?_, ?_⟩
    · have h0 : (0:ℚ) ≤ min ((paper.citationCount : ℚ) / 10000) (1 / 5) :=
        le_min (by positivity) (by norm_num)
      linarith
    · have h5 : min ((paper.citationCount : ℚ) / 10000) (1 / 5) ≤ 1 / 5 := min_le_right _ _
      linarith
  · intro cfg fetch max_results rs r hok hr
    simp only [search_arxiv] at hok
    split at hok
    · simp at hok
    · next items heq =>
      simp only [Except.ok.injEq] at hok
      rw [← hok] at hr
      rcases arxivLoop_mem cfg items [] r hr with h0 | ⟨item, hrit, _⟩
      · simp at h0
      · rw [hrit]
        rfl

/-- Witness for the theorem of claim C8, at a concrete paper that the
processing step accepts. -/
theorem score_formula_bounds_witness :
    (mk_semantic_scholar_record cfgRequire samplePaperTrusted).score
        = 1 + min ((samplePaperTrusted.citationCount : ℚ) / 10000) (1 / 5) ∧
      1 ≤ (mk_semantic_scholar_record cfgRequire samplePaperTrusted).score ∧
      (mk_semantic_scholar_record cfgRequire samplePaperTrusted).score ≤ 6 / 5 :=
  score_formula_bounds.1 cfgRequire samplePaperTrusted
    (mk_semantic_scholar_record cfgRequire samplePaperTrusted) (by decide)

/-- Claim C9: `search_papers` surfaces failures as an empty result list rather
than an exception — a raising adapter call yields `[]`, an unknown or disabled
source yields `[]`, and a zero-raw-item provider answer yields `[]` as a
normal outcome (the embedded `search_papers` is a total function into record
lists). -/
theorem search_papers_error_handling :
    (∀ (cfg : Config) (s2client : Option (Nat → Except String (List SSPaper)))
        (arxivFetch : Nat → Except String (List ArxivItem)) (src : String) (max_results : Nat),
      src ≠ "arxiv" → src ≠ "semantic_scholar" →
      (search_papers cfg s2client arxivFetch (some src) max_results).results = []) ∧
    (∀ (cfg : Config) (s2client : Option (Nat → Except String (List SSPaper)))
        (arxivFetch : Nat → Except String (List ArxivItem)) (max_results : Nat),
      cfg.enable_semantic_scholar = false →
      (search_papers cfg s2client arxivFetch (some "semantic_scholar") max_results).results = []) ∧
    (∀ (cfg : Config) (arxivFetch : Nat → Except String (List ArxivItem)) (e : String)
        (max_results : Nat),
      (search_papers cfg (some fun _ => Except.error e) arxivFetch
        (some "semantic_scholar") max_results).results = []) ∧
    (∀ (cfg : Config) (s2client : Option (Nat → Except String (List SSPaper))) (e : String)
        (max_results : Nat),
      (search_papers cfg s2client (fun _ => Except.error e)
        (some "arxiv") max_results).results = []) ∧
    (∀ (cfg : Config) (arxivFetch : Nat → Except String (List ArxivItem)) (max_results : Nat),
      (search_papers cfg (some fun _ => Except.ok []) arxivFetch
        (some "semantic_scholar") max_results).results = []) ∧
    (∀ (cfg : Config) (s2client : Option (Nat → Except String (List SSPaper))) (max_results : Nat),
      (search_papers cfg s2client (fun _ => Except.ok [])
        (some "arxiv") max_results).results = []) := by
  refine ⟨?_, ?_, ?_, ?_, ?_, ?_⟩
  · intro cfg s2client arxivFetch src max_results h1 h2
    simp [search_papers, h1, h2]
  · intro cfg s2client arxivFetch max_results henable
    simp [search_papers, henable]
  · intro cfg arxivFetch e max_results
    rcases henable : cfg.enable_semantic_scholar with _ | _
    · simp [search_papers, henable]
    · simp [search_papers, henable, search_semantic_scholar]
  · intro cfg s2client e max_results
    simp [search_papers, search_arxiv]
  · intro cfg arxivFetch max_results
    rcases henable : cfg.enable_semantic_scholar with _ | _
    · simp [search_papers, henable]
    · simp [search_papers, henable, search_semantic_scholar]
  · intro cfg s2client max_results
    simp [search_papers, search_arxiv, arxivLoop]

/-- Witness for the theorem of claim C9: an unrecognized source name yields
the empty result list. -/
theorem search_papers_error_handling_witness :
    (search_papers cfgRequire none (fun _ => Except.ok []) (some "bogus") 5).results = [] :=
  search_papers_error_handling.1 cfgRequire none (fun _ => Except.ok []) "bogus" 5
    (by decide) (by decide)

/-- Claim C10: when the keyword-based search comes back empty and the analyzed
search query differs from the original user text, `handle_search` performs a
second full search with the original query verbatim (at the fallback default
`max_results = 5`) before reporting that no papers were found — so one user
request can trigger two provider batch fetches even though each `search()`
call issues only one. -/
theorem handle_search_fallback_retry (max_search_results : Nat) (search_query : String)
    (keywords : List String) (searchFn : String → Nat → List PaperSearchResult)
    (formatFn : List PaperSearchResult → String) (query : String)
    (h1 : searchFn (String.intercalate ", " keywords) max_search_results = [])
    (h2 : search_query ≠ query) :
    (handle_search max_search_results true search_query keywords searchFn formatFn query).searchCalls
        = [(String.intercalate ", " keywords, max_search_results), (query, 5)] ∧
    (searchFn query 5 = [] →
      (handle_search max_search_results true search_query keywords searchFn formatFn query).response
        = noPapersMessage) := by
  constructor
  · simp only [handle_search, Bool.not_true, h1]
    rw [if_neg (by simp)]
    rw [if_pos (by simp)]
    rw [if_pos h2]
    split <;> rfl
  · intro h3
    simp only [handle_search, Bool.not_true, h1]
    rw [if_neg (by simp)]
    rw [if_pos (by simp)]
    rw [if_pos h2]
    rw [if_pos (by simp [h3])]

/-- Witness for the theorem of claim C10, with a concrete empty-result search
function and differing queries. -/
theorem handle_search_fallback_retry_witness :
    (handle_search 7 true "b" ["a"] (fun _ _ => []) (fun _ => "") "c").searchCalls
        = [("a", 7), ("c", 5)] ∧
    ((fun _ _ => ([] : List PaperSearchResult)) "c" 5 = [] →
      (handle_search 7 true "b" ["a"] (fun _ _ => []) (fun _ => "") "c").response
        = noPapersMessage) :=
  handle_search_fallback_retry 7 "b" ["a"] (fun _ _ => []) (fun _ => "") "c" rfl (by decide)

end PaperSearch
